import Mathlib

/-
Verification of the route-compilation, preview-dispatch, URL-attribute and
template/filename-resolution layer of wagtail_pdf_view/mixins.py, as a shallow
embedding in Lean 4.

Modelling conventions:
- Python exceptions are modelled with Except; an AttributeError raised by
  getattr on a missing attribute becomes Except.error (PyErr.attributeError _).
- Python truthiness of an Optional[str] value (the pattern entries of
  ROUTE_CONFIG, the extension argument of get_template) is modelled by the
  predicate truthy: none and some "" are falsy, everything else is truthy.
- Django request/response objects are modelled as records carrying exactly the
  observable state the mixins touch: request.is_preview, and the cache-control
  side effects of patch_cache_control(response, private=True) and
  add_never_cache_headers(response), each modelled as a boolean flag.
- gettext translation is modelled as the identity on strings.
- django.utils.text.slugify is modelled for ASCII input (lowercase, drop
  characters that are not alphanumeric, underscore, whitespace or hyphen,
  collapse runs of hyphens and whitespace to a single hyphen, strip leading
  and trailing hyphens and underscores); unicode normalization is the identity
  on ASCII text.
- Python str.replace(".html", "." + extension) is modelled by replaceHtmlAux,
  which replaces every leftmost non-overlapping occurrence of ".html".
-/

deriving instance DecidableEq for Except

/-- Python exception values observable in this layer. -/
inductive PyErr where
  | attributeError (msg : String)
  | other (msg : String)
deriving DecidableEq

/-- A Django HttpRequest, reduced to the state this layer observes: the
is_preview flag set by serve_preview, and an opaque tag distinguishing
requests. -/
structure Request where
  is_preview : Bool
  tag : Nat
deriving DecidableEq

/-- A Django HttpResponse, reduced to the state this layer mutates: a body and
the two cache-control side effects applied by the mixins. -/
structure Response where
  body : String
  cachePrivate : Bool
  neverCache : Bool
deriving DecidableEq

/-- django.utils.cache.patch_cache_control(response, private=True), modelled as
setting the private-cache flag. -/
def patch_cache_control_private (r : Response) : Response :=
  { r with cachePrivate := true }

/-- django.utils.cache.add_never_cache_headers(response), modelled as setting
the never-cache flag. -/
def add_never_cache_headers (r : Response) : Response :=
  { r with neverCache := true }

/-- One entry of a ROUTE_CONFIG list: ("key", pattern_or_None, *args) where the
optional third component is the route name. -/
structure RouteEntry where
  key : String
  pattern : Option String
  name : Option String
deriving DecidableEq

/-- The routing metadata attached by setattr(cls, "serve_<key>",
route_function(fn, value, *args)): the attribute that was rebound, the url
pattern, and the reverse-lookup name. -/
structure RouteBinding where
  attr : String
  pattern : String
  name : String
deriving DecidableEq

/-- Python truthiness of an Optional[str]: None and the empty string are falsy.
This is the test performed by the statements "if value:" in __init_subclass__,
"if value and not hasattr(...)" in __init__ and "if extension:" in
get_template. -/
def truthy : Option String → Bool
  | none => false
  | some s => s != ""

/-- MultipleViewPageMixin.get_preview_name: the suggested display name for a
preview key, gettext modelled as the identity. -/
def get_preview_name (key : String) : String :=
  key ++ " preview"

/-- MultipleViewPageMixin.__init_subclass__, for a class that is a genuine Page
subclass (the issubclass(cls, Page) branch). Input: the names of the serve
methods reachable on the class, and cls.ROUTE_CONFIG. Output: the renewed
DEFAULT_PREVIEW_MODES list together with the route bindings installed by
setattr, or the AttributeError raised by getattr(cls, "serve_<key>") when a
truthy entry has no serve method. -/
def compileRoutes (methods : List String) : List RouteEntry → Except PyErr (List (String × String) × List RouteBinding)
  | [] => .ok ([], [])
  | e :: rest =>
    if truthy e.pattern then
      if ("serve_" ++ e.key) ∈ methods then
        match compileRoutes methods rest with
        | .ok (pms, bs) =>
            .ok ((e.key, get_preview_name e.key) :: pms,
                 { attr := "serve_" ++ e.key, pattern := e.pattern.getD "",
                   name := e.name.getD e.key } :: bs)
        | .error err => .error err
      else
        .error (.attributeError ("serve_" ++ e.key))
    else
      compileRoutes methods rest

/-- Lookup of an instance attribute in the instance dictionary, modelled as an
association list scanned front to back (first match wins). -/
def lookupA : List (String × String) → String → Option String
  | [], _ => none
  | (k, v) :: rest, n => if n = k then some v else lookupA rest n

/-- The url preparation inside MultipleViewPageMixin.__init__:
url = self.url; if url and not url.endswith(slash): url += slash.
The endswith test on the one-character suffix is modelled as a test on the
last character. -/
def urlWithSlash (u : String) : String :=
  if u ≠ "" ∧ u.data.getLast? ≠ some '/' then u ++ "/" else u

/-- MultipleViewPageMixin.__init__: walk self.ROUTE_CONFIG in order and, for
each truthy entry whose url_<key> instance attribute is absent, set
url_<key> to urlWithSlash(self.url) ++ self.reverse_subpage(name-or-key).
The page url and reverse_subpage are external collaborators, passed in as
u and rev. -/
def assignUrlAttrs (u : String) (rev : String → String) :
    List RouteEntry → List (String × String) → List (String × String)
  | [], attrs => attrs
  | e :: rest, attrs =>
    assignUrlAttrs u rev rest
      (if truthy e.pattern = true ∧ lookupA attrs ("url_" ++ e.key) = none then
        attrs ++ [("url_" ++ e.key, urlWithSlash u ++ rev (e.name.getD e.key))]
      else attrs)

/-- The state of a page instance observed by serve_preview: its preview_modes
property (the class DEFAULT_PREVIEW_MODES), its serve_* and serve_preview_*
attributes (getattr lookup table), and the inherited wagtail
Page.serve_preview it delegates to for unknown modes. -/
structure PreviewSelf where
  preview_modes : List (String × String)
  methods : List (String × (Request → Except PyErr Response))
  superServePreview : Request → String → Except PyErr Response

/-- getattr(self, attr) restricted to the serve method table. -/
def getattrMethod (self : PreviewSelf) (attr : String) :
    Option (Request → Except PyErr Response) :=
  self.methods.lookup attr

/-- MultipleViewPageMixin.serve_preview. Faithful to the source order: the
mode-name list is computed, request.is_preview is set to True, then the mode
is tested for membership; an enabled mode is dispatched to
serve_preview_<mode> when present and serve_<mode> otherwise, with
patch_cache_control(response, private=True) applied to a successful response;
any other mode is delegated to super().serve_preview. -/
def serve_preview (self : PreviewSelf) (request : Request) (mode_name : String) :
    Except PyErr Response :=
  let mode_names := self.preview_modes.map (fun m => m.1)
  let request2 : Request := { request with is_preview := true }
  if mode_name ∈ mode_names then
    match getattrMethod self ("serve_preview_" ++ mode_name) with
    | some serve => (serve request2).map patch_cache_control_private
    | none =>
      match getattrMethod self ("serve_" ++ mode_name) with
      | some serve => (serve request2).map patch_cache_control_private
      | none => .error (.attributeError ("serve_" ++ mode_name))
  else
    self.superServePreview request2 mode_name

/-- A PDF view provider class: PDF_VIEW_PROVIDER.as_view() yields a view
callable taking the request, the object keyword and the mode keyword. -/
structure PdfProvider (α : Type) where
  view : Request → α → String → Response

/-- PdfViewPageMixin.get_pdf_view: self.PDF_VIEW_PROVIDER.as_view(). When the
provider is unset (None, because neither weasyprint nor django-tex was
importable and no override was configured), None.as_view() raises
AttributeError. -/
def get_pdf_view {α : Type} (provider : Option (PdfProvider α)) :
    Except PyErr (Request → α → String → Response) :=
  match provider with
  | some p => .ok p.view
  | none => .error (.attributeError "as_view")

/-- PdfViewPageMixin.serve_pdf: obtain the provider view, invoke it with the
request, object=self and mode="pdf", force never-cache headers onto the
response and return it. -/
def serve_pdf {α : Type} (provider : Option (PdfProvider α)) (self : α)
    (request : Request) : Except PyErr Response :=
  match get_pdf_view provider with
  | .error e => .error e
  | .ok view => .ok (add_never_cache_headers (view request self "pdf"))

/-- The single-quote character, written by code point to keep it out of string
literals. -/
def squote : String := ⟨[Char.ofNat 39]⟩

/-- The AttributeError message raised by PdfModelMixin.get_template:
"Template attribute not found for model {m}. Try to add
{attr}=(quoted path) to {m}". -/
def templateErrMsg (model attr : String) : String :=
  "Template attribute not found for model " ++ model ++ ". Try to add " ++
    attr ++ "=" ++ squote ++ "path/to/your/template_file" ++ squote ++ " to " ++ model

/-- isinstance(view_provider, AdminViewMixin): None is not an instance; a
provider instance carries whether it mixes in AdminViewMixin. -/
def isAdminVP : Option Bool → Bool
  | some b => b
  | none => false

/-- The model/page state read by the template and filename resolvers:
_meta.model_name, the two template attributes (absent attributes raise
AttributeError, hence Option), the page title and the
pdf_slugify_document_name toggle. -/
structure TemplSelf where
  model_name : String
  template_name : Option String
  admin_template_name : Option String
  title : String
  pdf_slugify_document_name : Bool
deriving DecidableEq

/-- PdfModelMixin.get_template: choose the admin template attribute when the
view provider is an AdminViewMixin instance, the regular one otherwise; return
its value, or raise the descriptive AttributeError when absent. -/
def pdfModel_get_template (self : TemplSelf) (view_provider : Option Bool) :
    Except String String :=
  if isAdminVP view_provider then
    match self.admin_template_name with
    | some t => .ok t
    | none => .error (templateErrMsg self.model_name "admin_template_name")
  else
    match self.template_name with
    | some t => .ok t
    | none => .error (templateErrMsg self.model_name "template_name")

/-- Python str.replace specialised to the ".html" needle: scan left to right
and replace every non-overlapping occurrence of ".html" with rep. -/
def replaceHtmlAux (rep : List Char) : List Char → List Char
  | [] => []
  | '.' :: 'h' :: 't' :: 'm' :: 'l' :: rest => rep ++ replaceHtmlAux rep rest
  | c :: rest => c :: replaceHtmlAux rep rest

/-- template_name.replace(".html", "." + extension). -/
def pyReplaceHtml (t ext : String) : String :=
  ⟨replaceHtmlAux ("." ++ ext).data t.data⟩

/-- PdfViewPageMixin.get_template: delegate to PdfModelMixin.get_template with
the request only (view_provider is not forwarded), then, when the extension
argument is truthy, replace ".html" in the result. -/
def pdfPage_get_template (self : TemplSelf) (extension : Option String)
    (_view_provider : Option Bool) : Except String String :=
  match pdfModel_get_template self none with
  | .error e => .error e
  | .ok template_name =>
    .ok (match extension with
         | some ext => if ext = "" then template_name else pyReplaceHtml template_name ext
         | none => template_name)

/-- ASCII word character, the \x5cw class of the regex used by slugify. -/
def isWordChar (c : Char) : Bool :=
  c.isAlphanum || c = '_'

/-- ASCII whitespace, the \x5cs class of the regex used by slugify. -/
def isSpaceChar (c : Char) : Bool :=
  c = ' ' || c = '\t' || c = '\n' || c = '\r' || c = '\x0b' || c = '\x0c'

/-- Second rewrite step of slugify: collapse every run of hyphens and
whitespace into a single hyphen. The boolean records whether the previous
character belonged to such a run. -/
def collapseAux : Bool → List Char → List Char
  | _, [] => []
  | prevSep, c :: rest =>
    if isSpaceChar c || c = '-' then
      if prevSep then collapseAux true rest else '-' :: collapseAux true rest
    else
      c :: collapseAux false rest

/-- Final step of slugify: value.strip of hyphens and underscores at both
ends. -/
def stripDashUnderscore (l : List Char) : List Char :=
  ((l.dropWhile (fun c => c = '-' || c = '_')).reverse.dropWhile
    (fun c => c = '-' || c = '_')).reverse

/-- django.utils.text.slugify for ASCII input: lowercase, remove characters
that are neither word characters nor whitespace nor hyphens, collapse runs of
hyphens and whitespace to a single hyphen, strip hyphens and underscores at
both ends. -/
def slugify (s : String) : String :=
  ⟨stripDashUnderscore (collapseAux false
    ((s.data.map Char.toLower).filter (fun c => isWordChar c || isSpaceChar c || c = '-')))⟩

/-- PdfModelMixin.get_pdf_filename: the model name extended with ".pdf". -/
def pdfModel_get_pdf_filename (self : TemplSelf) : String :=
  self.model_name ++ ".pdf"

/-- PdfViewPageMixin.get_pdf_filename: the page title, slugified when the
pdf_slugify_document_name toggle is on, extended with ".pdf". -/
def pdfPage_get_pdf_filename (self : TemplSelf) : String :=
  (if self.pdf_slugify_document_name then slugify self.title else self.title) ++ ".pdf"

/-- Concrete reverse_subpage stand-in used by concrete instances below. -/
def revW : String → String :=
  fun n => "sub-" ++ n ++ "/"

/-- A concrete ROUTE_CONFIG: pdf enabled on the root pattern, html disabled. -/
def cfgW : List RouteEntry :=
  [⟨"pdf", some "^$", none⟩, ⟨"html", none, none⟩]

theorem string_append_left_cancel (s a b : String) (h : s ++ a = s ++ b) : a = b := by
  have hd : s.data ++ a.data = s.data ++ b.data := by
    have h2 := congrArg String.data h
    simpa [String.data_append] using h2
  have hab : a.data = b.data := List.append_cancel_left hd
  cases a
  cases b
  exact congrArg String.mk hab

theorem lookupA_append_some (l l₂ : List (String × String)) (n v : String)
    (h : lookupA l n = some v) : lookupA (l ++ l₂) n = some v := by
  induction l with
  | nil => simp [lookupA] at h
  | cons p rest ih =>
    obtain ⟨k, w⟩ := p
    by_cases hk : n = k
    · simpa [lookupA, hk] using h
    · simp [lookupA, hk] at h ⊢
      exact ih h

theorem lookupA_append_single_ne (l : List (String × String)) (n k w : String)
    (h : n ≠ k) : lookupA (l ++ [(k, w)]) n = lookupA l n := by
  induction l with
  | nil => simp [lookupA, h]
  | cons p rest ih =>
    obtain ⟨k2, w2⟩ := p
    by_cases hk : n = k2 <;> simp [lookupA, hk, ih]

theorem lookupA_append_single_self (l : List (String × String)) (k v : String)
    (h : lookupA l k = none) : lookupA (l ++ [(k, v)]) k = some v := by
  induction l with
  | nil => simp [lookupA]
  | cons p rest ih =>
    obtain ⟨k2, w2⟩ := p
    by_cases hk : k = k2
    · simp [lookupA, hk] at h
    · simp [lookupA, hk] at h ⊢
      exact ih h

theorem compileRoutes_ok_eq (methods : List String) (config : List RouteEntry)
    (pms : List (String × String)) (bs : List RouteBinding)
    (h : compileRoutes methods config = .ok (pms, bs)) :
    pms = (config.filter (fun e => truthy e.pattern)).map
      (fun e => (e.key, get_preview_name e.key)) ∧
    bs.map RouteBinding.attr = (config.filter (fun e => truthy e.pattern)).map
      (fun e => "serve_" ++ e.key) := by
  induction config generalizing pms bs with
  | nil =>
    simp [compileRoutes] at h
    simp [h.1, h.2]
  | cons e rest ih =>
    by_cases ht : truthy e.pattern
    · by_cases hm : ("serve_" ++ e.key) ∈ methods
      · cases hrec : compileRoutes methods rest with
        | ok pr =>
          obtain ⟨pms2, bs2⟩ := pr
          have hih := ih pms2 bs2 hrec
          simp [compileRoutes, ht, hm, hrec] at h
          obtain ⟨h1, h2⟩ := h
          subst h1
          subst h2
          simp [List.filter_cons, ht, hih.1, hih.2]
        | error err =>
          simp [compileRoutes, ht, hm, hrec] at h
      · simp [compileRoutes, ht, hm] at h
    · have ht2 : truthy e.pattern = false := by
        simpa using ht
      have hstep : compileRoutes methods (e :: rest) = compileRoutes methods rest := by
        simp [compileRoutes, ht2]
      rw [hstep] at h
      have hih := ih pms bs h
      simp [List.filter_cons, ht2, hih.1, hih.2]

/-- Claim C1 (corrected), counterexample: an entry whose pattern is the empty
string is non-null, yet __init_subclass__ skips it, so DEFAULT_PREVIEW_MODES
is empty instead of containing ("html", "html preview"): the guard in the
source is Python truthiness, not a None test. -/
theorem route_config_empty_pattern_counterexample :
    (⟨"html", some "", none⟩ : RouteEntry).pattern ≠ none ∧
    compileRoutes ["serve_html"] [⟨"html", some "", none⟩] = .ok ([], []) := by
  constructor
  · decide
  · decide

/-- Claim C1 (amended): for every ROUTE_CONFIG list, compilation succeeds with
a DEFAULT_PREVIEW_MODES list holding exactly one (key, key ++ " preview")
entry per entry whose pattern is truthy (non-null and non-empty), in the same
relative order; the bound route attributes are serve_<key> for the same
entries in the same order; and a key all of whose entries are non-truthy (in
particular a key a subclass redeclared with pattern None) appears in no
preview mode and has no serve_<key> route binding. -/
theorem compileRoutes_preview_modes_spec (methods : List String)
    (config : List RouteEntry) (pms : List (String × String))
    (bs : List RouteBinding)
    (h : compileRoutes methods config = .ok (pms, bs)) :
    pms = (config.filter (fun e => truthy e.pattern)).map
      (fun e => (e.key, get_preview_name e.key)) ∧
    bs.map RouteBinding.attr = (config.filter (fun e => truthy e.pattern)).map
      (fun e => "serve_" ++ e.key) ∧
    ∀ k : String, (∀ e ∈ config, e.key = k → truthy e.pattern = false) →
      (∀ p ∈ pms, p.1 ≠ k) ∧ (∀ b ∈ bs, b.attr ≠ "serve_" ++ k) := by
  obtain ⟨h1, h2⟩ := compileRoutes_ok_eq methods config pms bs h
  refine ⟨h1, h2, ?_⟩
  intro k hk
  constructor
  · intro p hp
    rw [h1] at hp
    obtain ⟨e, hef, rfl⟩ := List.mem_map.mp hp
    obtain ⟨he, htr⟩ := List.mem_filter.mp hef
    intro heq
    rw [hk e he heq] at htr
    exact Bool.false_ne_true htr
  · intro b hb
    have hmem : b.attr ∈ bs.map RouteBinding.attr := List.mem_map_of_mem _ hb
    rw [h2] at hmem
    obtain ⟨e, hef, heq⟩ := List.mem_map.mp hmem
    obtain ⟨he, htr⟩ := List.mem_filter.mp hef
    intro hattr
    have hkey : e.key = k :=
      string_append_left_cancel "serve_" e.key k (heq.symm ▸ hattr)
    rw [hk e he hkey] at htr
    exact Bool.false_ne_true htr

/-- Claim C1 witness: at the concrete configuration cfgW with serve_html and
serve_pdf methods present, the derived preview-mode list is exactly the one
entry for the truthy pdf entry. -/
theorem compileRoutes_preview_modes_spec_witness :
    ([("pdf", "pdf preview")] : List (String × String)) =
      (cfgW.filter (fun e => truthy e.pattern)).map
        (fun e => (e.key, get_preview_name e.key)) :=
  (compileRoutes_preview_modes_spec ["serve_html", "serve_pdf"] cfgW
    [("pdf", "pdf preview")] [⟨"serve_pdf", "^$", "pdf"⟩] (by decide)).1

/-- Claim C2 (corrected), counterexample: an entry with key pdf and the
non-null pattern "" while no serve_pdf method exists does not raise; the
entry is silently skipped because the source tests truthiness, not None. -/
theorem missing_serve_empty_pattern_counterexample :
    (⟨"pdf", some "", none⟩ : RouteEntry).pattern ≠ none ∧
    ("serve_pdf" ∉ ([] : List String)) ∧
    compileRoutes [] [⟨"pdf", some "", none⟩] = .ok ([], []) := by
  refine ⟨by decide, by decide, by decide⟩

/-- Claim C2 (amended): if some ROUTE_CONFIG entry has a truthy (non-null,
non-empty) pattern and no serve_<key> method exists on the class, route
compilation raises an error at class-definition time instead of producing a
class. -/
theorem compileRoutes_missing_serve_method_errors (methods : List String)
    (config : List RouteEntry) (e : RouteEntry) (he : e ∈ config)
    (ht : truthy e.pattern = true) (hm : ("serve_" ++ e.key) ∉ methods) :
    ∃ err, compileRoutes methods config = .error err := by
  induction config with
  | nil => cases he
  | cons f rest ih =>
    rcases List.mem_cons.mp he with rfl | hmem
    · rw [show compileRoutes methods (e :: rest) =
          (if truthy e.pattern then
            if ("serve_" ++ e.key) ∈ methods then
              match compileRoutes methods rest with
              | .ok (pms, bs) =>
                  .ok ((e.key, get_preview_name e.key) :: pms,
                       { attr := "serve_" ++ e.key, pattern := e.pattern.getD "",
                         name := e.name.getD e.key } :: bs)
              | .error err => .error err
            else .error (.attributeError ("serve_" ++ e.key))
          else compileRoutes methods rest) from rfl]
      rw [if_pos ht, if_neg hm]
      exact ⟨_, rfl⟩
    · by_cases htf : truthy f.pattern
      · by_cases hmf : ("serve_" ++ f.key) ∈ methods
        · obtain ⟨err, herr⟩ := ih hmem
          refine ⟨err, ?_⟩
          simp [compileRoutes, htf, hmf, herr]
        · refine ⟨.attributeError ("serve_" ++ f.key), ?_⟩
          simp [compileRoutes, htf, hmf]
      · obtain ⟨err, herr⟩ := ih hmem
        refine ⟨err, ?_⟩
        have htf2 : truthy f.pattern = false := by simpa using htf
        simpa [compileRoutes, htf2] using herr

/-- Claim C2 witness: a truthy pdf entry with no serve_pdf method makes class
creation fail with the AttributeError raised by getattr. -/
theorem compileRoutes_missing_serve_method_errors_witness :
    compileRoutes ["serve_html"] [⟨"pdf", some "^pdf/$", none⟩] =
      .error (.attributeError "serve_pdf") := by
  obtain ⟨err, herr⟩ := compileRoutes_missing_serve_method_errors
    ["serve_html"] [⟨"pdf", some "^pdf/$", none⟩] ⟨"pdf", some "^pdf/$", none⟩
    (by decide) (by decide) (by decide)
  have hval : compileRoutes ["serve_html"] [⟨"pdf", some "^pdf/$", none⟩] =
      .error (.attributeError "serve_pdf") := by decide
  exact hval

/-- A concrete serve_preview_pdf method whose response records whether the
request it received was marked as a preview request. -/
def previewServeW : Request → Except PyErr Response :=
  fun req => .ok ⟨if req.is_preview then "preview-body" else "live-body", false, false⟩

/-- A concrete wagtail Page.serve_preview whose response records whether the
request it received was marked as a preview request. -/
def superServeW : Request → String → Except PyErr Response :=
  fun req _ => .ok ⟨if req.is_preview then "super-preview" else "super-live", false, false⟩

/-- A concrete page instance with one enabled preview mode (pdf) and a
serve_preview_pdf method. -/
def previewSelfW : PreviewSelf :=
  { preview_modes := [("pdf", "pdf preview")],
    methods := [("serve_preview_pdf", previewServeW)],
    superServePreview := superServeW }

/-- Claim C3 (confirmed): for an enabled preview mode, serve_preview invokes
serve_preview_<mode> when that attribute exists and serve_<mode> otherwise,
passing the request with is_preview already set to True; the returned
response is the one produced by the chosen method with the private
cache-control directive applied; an exception raised by the chosen method
propagates unchanged. -/
theorem serve_preview_enabled_dispatch (self : PreviewSelf) (request : Request)
    (mode_name : String)
    (hmode : mode_name ∈ self.preview_modes.map (fun m => m.1)) :
    (∀ f, getattrMethod self ("serve_preview_" ++ mode_name) = some f →
      serve_preview self request mode_name =
        (f { request with is_preview := true }).map patch_cache_control_private) ∧
    (getattrMethod self ("serve_preview_" ++ mode_name) = none →
      ∀ f, getattrMethod self ("serve_" ++ mode_name) = some f →
        serve_preview self request mode_name =
          (f { request with is_preview := true }).map patch_cache_control_private) ∧
    (∀ f e, getattrMethod self ("serve_preview_" ++ mode_name) = some f →
      f { request with is_preview := true } = .error e →
      serve_preview self request mode_name = .error e) := by
  refine ⟨?_, ?_, ?_⟩
  · intro f hf
    simp [serve_preview, hmode, hf]
  · intro h0 f hf
    simp [serve_preview, hmode, h0, hf]
  · intro f e hf he
    simp [serve_preview, hmode, hf, he, Except.map]

/-- Claim C3 witness: dispatching the enabled pdf mode on the concrete
instance invokes serve_preview_pdf with is_preview set, and the response
carries the private cache-control directive. -/
theorem serve_preview_enabled_dispatch_witness :
    ("pdf" ∈ previewSelfW.preview_modes.map (fun m => m.1)) ∧
    serve_preview previewSelfW ⟨false, 0⟩ "pdf" =
      .ok ⟨"preview-body", true, false⟩ :=
  ⟨by decide,
   ((serve_preview_enabled_dispatch previewSelfW ⟨false, 0⟩ "pdf"
      (by decide)).1 previewServeW rfl).trans (by decide)⟩

/-- Claim C4 (corrected), counterexample: for a mode that is not an enabled
preview mode, serve_preview does not hand the framework fallback the request
unchanged: is_preview has already been set to True on it, so the delegated
call observes a different request than the caller supplied. -/
theorem serve_preview_fallback_request_modified :
    serve_preview previewSelfW ⟨false, 7⟩ "html" ≠
      previewSelfW.superServePreview ⟨false, 7⟩ "html" := by
  decide

/-- Claim C4 (amended): for every call to serve_preview with a mode name that
is not among the enabled preview-mode keys, the call is delegated to the host
framework default preview handling with the request after is_preview has been
set to True (the request is otherwise unmodified): no serve_<mode> or
serve_preview_<mode> method is invoked and no attribute error is raised. -/
theorem serve_preview_unknown_mode_delegates (self : PreviewSelf)
    (request : Request) (mode_name : String)
    (hmode : mode_name ∉ self.preview_modes.map (fun m => m.1)) :
    serve_preview self request mode_name =
      self.superServePreview { request with is_preview := true } mode_name := by
  simp [serve_preview, hmode]

/-- Claim C4 witness: the unknown html mode on the concrete instance is
answered by the framework fallback, which observes is_preview = true. -/
theorem serve_preview_unknown_mode_delegates_witness :
    serve_preview previewSelfW ⟨false, 7⟩ "html" =
      .ok ⟨"super-preview", false, false⟩ :=
  (serve_preview_unknown_mode_delegates previewSelfW ⟨false, 7⟩ "html"
    (by decide)).trans (by decide)

theorem assignUrlAttrs_preserves (u : String) (rev : String → String)
    (config : List RouteEntry) (attrs : List (String × String)) (n v : String)
    (h : lookupA attrs n = some v) :
    lookupA (assignUrlAttrs u rev config attrs) n = some v := by
  induction config generalizing attrs with
  | nil => simpa [assignUrlAttrs] using h
  | cons e rest ih =>
    simp only [assignUrlAttrs]
    split
    · exact ih _ (lookupA_append_some _ _ _ _ h)
    · exact ih _ h

theorem assignUrlAttrs_isSome (u : String) (rev : String → String)
    (config : List RouteEntry) (attrs : List (String × String)) (e : RouteEntry)
    (he : e ∈ config) (ht : truthy e.pattern = true) :
    (lookupA (assignUrlAttrs u rev config attrs) ("url_" ++ e.key)).isSome = true := by
  induction config generalizing attrs with
  | nil => cases he
  | cons f rest ih =>
    rcases List.mem_cons.mp he with rfl | hmem
    · simp only [assignUrlAttrs]
      by_cases hc : truthy e.pattern = true ∧ lookupA attrs ("url_" ++ e.key) = none
      · rw [if_pos hc]
        have hset := lookupA_append_single_self attrs ("url_" ++ e.key)
          (urlWithSlash u ++ rev (e.name.getD e.key)) hc.2
        rw [assignUrlAttrs_preserves u rev rest _ _ _ hset]
        rfl
      · rw [if_neg hc]
        have hne : lookupA attrs ("url_" ++ e.key) ≠ none := fun hn => hc ⟨ht, hn⟩
        obtain ⟨v, hv⟩ := Option.ne_none_iff_exists'.mp hne
        rw [assignUrlAttrs_preserves u rev rest _ _ _ hv]
        rfl
    · simp only [assignUrlAttrs]
      exact ih _ hmem

theorem assignUrlAttrs_noop (u : String) (rev : String → String)
    (config : List RouteEntry) (attrs : List (String × String))
    (h : ∀ e ∈ config, truthy e.pattern = true →
      (lookupA attrs ("url_" ++ e.key)).isSome = true) :
    assignUrlAttrs u rev config attrs = attrs := by
  induction config with
  | nil => rfl
  | cons f rest ih =>
    simp only [assignUrlAttrs]
    have hguard : ¬ (truthy f.pattern = true ∧
        lookupA attrs ("url_" ++ f.key) = none) := by
      rintro ⟨ht, hn⟩
      have := h f (List.mem_cons_self f rest) ht
      rw [hn] at this
      exact Bool.false_ne_true this
    rw [if_neg hguard]
    exact ih (fun e hmem => h e (List.mem_cons_of_mem f hmem))

theorem assignUrlAttrs_value (u : String) (rev : String → String)
    (config : List RouteEntry) (attrs : List (String × String)) (e : RouteEntry)
    (hnd : (config.map RouteEntry.key).Nodup) (he : e ∈ config)
    (ht : truthy e.pattern = true)
    (habs : lookupA attrs ("url_" ++ e.key) = none) :
    lookupA (assignUrlAttrs u rev config attrs) ("url_" ++ e.key) =
      some (urlWithSlash u ++ rev (e.name.getD e.key)) := by
  induction config generalizing attrs with
  | nil => cases he
  | cons f rest ih =>
    have hnd2 : (rest.map RouteEntry.key).Nodup :=
      (List.nodup_cons.mp (by simpa using hnd)).2
    rcases List.mem_cons.mp he with rfl | hmem
    · simp only [assignUrlAttrs]
      rw [if_pos ⟨ht, habs⟩]
      exact assignUrlAttrs_preserves u rev rest _ _ _
        (lookupA_append_single_self attrs _ _ habs)
    · have hkey : f.key ≠ e.key := by
        have hnotin : f.key ∉ rest.map RouteEntry.key :=
          (List.nodup_cons.mp (by simpa using hnd)).1
        intro heq
        exact hnotin (heq ▸ List.mem_map_of_mem RouteEntry.key hmem)
      simp only [assignUrlAttrs]
      split
      · refine ih _ hnd2 hmem ?_
        rw [lookupA_append_single_ne]
        · exact habs
        · intro hu
          exact hkey (string_append_left_cancel "url_" e.key f.key hu).symm
      · exact ih _ hnd2 hmem habs

/-- Claim C5 (corrected), counterexample. First part: an entry with the
non-null pattern "" sets nothing (the guard is truthiness, so url_a is
absent although the claim requires it to be set). Second part: for a page
whose own url is the empty string, no trailing slash is ensured; the stored
value is the bare reversed sub-path "sub-b/" and not "/" ++ "sub-b/" as the
trailing-slash-ensured reading requires. -/
theorem assign_url_attrs_counterexample :
    ((⟨"a", some "", none⟩ : RouteEntry).pattern ≠ none ∧
     assignUrlAttrs "http://x/p" revW [⟨"a", some "", none⟩] [] = []) ∧
    (lookupA (assignUrlAttrs "" revW [⟨"b", some "^$", none⟩] []) "url_b" =
       some "sub-b/" ∧
     ("sub-b/" : String) ≠ "/" ++ "sub-b/") := by
  refine ⟨⟨by decide, by decide⟩, by decide, by decide⟩

/-- Claim C5 (amended): at instance initialization, for every ROUTE_CONFIG
entry (key, pattern, name?) with truthy (non-null, non-empty) pattern and
distinct keys: if the instance has no url_<key> attribute, it is set to the
page url — with a trailing slash appended only when the url is non-empty and
does not already end in a slash — concatenated with the reversed sub-path for
name (or key when name is absent); attributes already present keep their
value; and running the assignment again on the resulting instance changes
nothing. -/
theorem assign_url_attrs_spec (u : String) (rev : String → String)
    (config : List RouteEntry) (attrs : List (String × String)) (e : RouteEntry)
    (hnd : (config.map RouteEntry.key).Nodup) (he : e ∈ config)
    (ht : truthy e.pattern = true)
    (habs : lookupA attrs ("url_" ++ e.key) = none) :
    lookupA (assignUrlAttrs u rev config attrs) ("url_" ++ e.key) =
      some (urlWithSlash u ++ rev (e.name.getD e.key)) ∧
    (∀ n v, lookupA attrs n = some v →
      lookupA (assignUrlAttrs u rev config attrs) n = some v) ∧
    assignUrlAttrs u rev config (assignUrlAttrs u rev config attrs) =
      assignUrlAttrs u rev config attrs := by
  refine ⟨assignUrlAttrs_value u rev config attrs e hnd he ht habs,
    fun n v h => assignUrlAttrs_preserves u rev config attrs n v h, ?_⟩
  exact assignUrlAttrs_noop u rev config _
    (fun f hmem htf => assignUrlAttrs_isSome u rev config attrs f hmem htf)

/-- Claim C5 witness: on a concrete page with url lacking the trailing slash
and a single enabled pdf route, initialization stores
url_pdf = page url + slash + reversed sub-path, and rerunning the
assignment leaves the instance unchanged. -/
theorem assign_url_attrs_spec_witness :
    lookupA (assignUrlAttrs "http://host/page" revW
        [⟨"pdf", some "^$", none⟩] []) "url_pdf" =
      some "http://host/page/sub-pdf/" := by
  have h := assign_url_attrs_spec "http://host/page" revW
    [⟨"pdf", some "^$", none⟩] [] ⟨"pdf", some "^$", none⟩
    (by decide) (by decide) (by decide) rfl
  exact h.1.trans (by decide)

/-- Claim C6 (confirmed): serve_pdf invokes the view obtained from the
configured provider with the current request, object set to the page
instance and mode "pdf", and returns the response with never-cache headers
forced onto it; when the provider is unset, serving a PDF fails at dispatch
time with the AttributeError raised by calling as_view on the missing
provider. -/
theorem serve_pdf_spec {α : Type} (p : PdfProvider α) (self : α)
    (request : Request) :
    serve_pdf (some p) self request =
      .ok (add_never_cache_headers (p.view request self "pdf")) ∧
    serve_pdf (none : Option (PdfProvider α)) self request =
      .error (.attributeError "as_view") :=
  ⟨rfl, rfl⟩

/-- Claim C7 (corrected), counterexample. First part: with
template_name = "x.html.html" and extension "tex" the result is "x.tex.tex",
not the "x.html.tex" a trailing-only substitution would give: str.replace
rewrites every occurrence. Second part: the empty string is a non-null
extension, yet no substitution happens ("if extension:" is a truthiness
test), so the result keeps ".html" instead of becoming "x.". -/
theorem get_template_extension_counterexample :
    (pdfPage_get_template ⟨"m", some "x.html.html", none, "T", true⟩
        (some "tex") none = .ok "x.tex.tex" ∧
     ("x.tex.tex" : String) ≠ "x.html.tex") ∧
    (pdfPage_get_template ⟨"m", some "x.html", none, "T", true⟩
        (some "") none = .ok "x.html" ∧
     ("x.html" : String) ≠ "x.") := by
  refine ⟨⟨by decide, by decide⟩, by decide, by decide⟩

/-- Claim C7 (amended): when get_template is called with a truthy (non-null,
non-empty) extension, the returned template name is the configured template
path with every leftmost non-overlapping occurrence of the literal substring
".html" replaced by "." followed by the extension (plain string substitution,
not path-aware and not restricted to a trailing occurrence); in particular,
for template_name "foo.html", get_template with extension "tex" returns
"foo.tex". -/
theorem get_template_extension_spec (self : TemplSelf) (t ext : String)
    (vp : Option Bool) (h1 : self.template_name = some t) (h2 : ext ≠ "") :
    pdfPage_get_template self (some ext) vp = .ok (pyReplaceHtml t ext) ∧
    pdfPage_get_template ⟨"m", some "foo.html", none, "T", true⟩
      (some "tex") none = .ok "foo.tex" := by
  constructor
  · simp [pdfPage_get_template, pdfModel_get_template, isAdminVP, h1, h2,
      pyReplaceHtml]
  · decide

/-- Claim C7 witness: the concrete page with template "foo.html" and
extension "tex" yields "foo.tex". -/
theorem get_template_extension_spec_witness :
    pdfPage_get_template ⟨"m", some "foo.html", none, "T", true⟩
      (some "tex") none = .ok "foo.tex" :=
  (get_template_extension_spec ⟨"m", some "foo.html", none, "T", true⟩
    "foo.html" "tex" none rfl (by decide)).2

/-- Claim C8 (confirmed): the page-level get_pdf_filename returns the
slugified title plus ".pdf" when pdf_slugify_document_name is on (for the
title "My Page" that is "my-page.pdf") and the raw title plus ".pdf" when it
is off ("My Page.pdf"); the model-level get_pdf_filename returns the model
name plus ".pdf". -/
theorem get_pdf_filename_spec (self : TemplSelf) :
    pdfPage_get_pdf_filename
      { self with title := "My Page", pdf_slugify_document_name := true } =
        "my-page.pdf" ∧
    pdfPage_get_pdf_filename
      { self with title := "My Page", pdf_slugify_document_name := false } =
        "My Page.pdf" ∧
    pdfPage_get_pdf_filename self =
      (if self.pdf_slugify_document_name then slugify self.title
       else self.title) ++ ".pdf" ∧
    pdfModel_get_pdf_filename self = self.model_name ++ ".pdf" := by
  refine ⟨?_, ?_, rfl, rfl⟩
  · show (if true then slugify "My Page" else "My Page") ++ ".pdf" = "my-page.pdf"
    decide
  · show (if false then slugify "My Page" else "My Page") ++ ".pdf" = "My Page.pdf"
    decide

/-- Claim C9 (confirmed): when the selected template attribute is absent
(here: both template attributes absent), get_template raises the descriptive
AttributeError that names the model and the missing attribute; when the
selected attribute is present, its string value is returned. -/
theorem pdfModel_get_template_spec (self : TemplSelf) (vp : Option Bool) :
    (self.template_name = none → self.admin_template_name = none →
      pdfModel_get_template self vp = .error (templateErrMsg self.model_name
        (if isAdminVP vp then "admin_template_name" else "template_name"))) ∧
    (∀ v, isAdminVP vp = false → self.template_name = some v →
      pdfModel_get_template self vp = .ok v) ∧
    (∀ v, isAdminVP vp = true → self.admin_template_name = some v →
      pdfModel_get_template self vp = .ok v) := by
  refine ⟨?_, ?_, ?_⟩
  · intro h1 h2
    by_cases hvp : isAdminVP vp = true
    · simp [pdfModel_get_template, hvp, h2]
    · have hvp2 : isAdminVP vp = false := by simpa using hvp
      simp [pdfModel_get_template, hvp2, h1]
  · intro v hvp h1
    simp [pdfModel_get_template, hvp, h1]
  · intro v hvp h2
    simp [pdfModel_get_template, hvp, h2]

/-- Claim C9 witness: a model with neither template attribute raises the
descriptive error naming the model and the admin attribute under an admin
provider, and a model with template_name set returns it under a regular
provider. -/
theorem pdfModel_get_template_spec_witness :
    pdfModel_get_template ⟨"mypage", none, none, "T", true⟩ (some true) =
      .error (templateErrMsg "mypage" "admin_template_name") ∧
    pdfModel_get_template ⟨"m2", some "t.html", none, "T", true⟩ (some false) =
      .ok "t.html" :=
  ⟨((pdfModel_get_template_spec ⟨"mypage", none, none, "T", true⟩
      (some true)).1 rfl rfl).trans (by decide),
   (pdfModel_get_template_spec ⟨"m2", some "t.html", none, "T", true⟩
      (some false)).2.1 "t.html" rfl rfl⟩

/-- Claim C10 (confirmed): the page-level get_template does not forward the
view_provider keyword to the base resolver, so its result is independent of
the view_provider argument and of the admin template attribute: for any two
provider arguments and any two admin template values the result is the
same. -/
theorem get_template_ignores_view_provider (self : TemplSelf)
    (extension : Option String) (vp1 vp2 : Option Bool)
    (a1 a2 : Option String) :
    pdfPage_get_template { self with admin_template_name := a1 } extension vp1 =
    pdfPage_get_template { self with admin_template_name := a2 } extension vp2 :=
  rfl
